import Mathlib

/-!
# Verification of the AWS Infra Manager MCP server against its specification

Shallow embedding of the shared logic of the repository
`sigitp-git/aws-infra-manager-mcp-server`:

* the client registry (`AWSClientManager.get_session` / `get_client`) of
  `server.py` (the same class text appears in `simple_server.py` and
  `server_backup.py`),
* the uniform error handler `handle_aws_error_inline` and the result
  envelopes of the tool functions,
* representative tools of `server.py` and `server_backup.py`
  (`get_caller_identity`, `list_ec2_instances`, `terminate_ec2_instance`,
  `launch_ec2_instance` parameter building, `create_vpc`),
* the CLI dispatch and exit-code logic of `cli.py`.

Dictionaries are embedded as association lists of string keys and JSON-like
values; Python exceptions are embedded as an explicit error type; the
process-wide mutable state of the client manager is threaded explicitly.
-/

namespace AwsInfra

/-- JSON-like values, the payloads of the dictionaries the tools return. -/
inductive Value where
  | null
  | bool (b : Bool)
  | str (s : String)
  | nat (n : Nat)
  | list (xs : List Value)
  | dict (xs : List (String × Value))
  deriving Repr, BEq

/-- A Python dictionary with string keys, as an association list. -/
abbrev Envelope := List (String × Value)

/-- Dictionary key access: first binding of the key, `none` when absent. -/
def alookup {α : Type} (k : String) : List (String × α) → Option α
  | [] => none
  | (k1, v) :: rest => if k1 = k then some v else alookup k rest

/-- Python truthiness of an embedded value (`None`, `False`, `""`, `0`,
empty list and empty dict are falsy). -/
def truthy : Value → Bool
  | .null => false
  | .bool b => b
  | .str s => s != ""
  | .nat n => n != 0
  | .list xs => !xs.isEmpty
  | .dict xs => !xs.isEmpty

/-- `d.get(k)` followed by a Python truth test: absent keys read as `None`,
which is falsy. -/
def getTruthy (env : Envelope) (k : String) : Bool :=
  match alookup k env with
  | some v => truthy v
  | none => false

/-- A Python exception reaching a tool boundary: either a botocore
`ClientError` carrying a machine-readable code and message (plus its
`str(e)` form), or any other exception with its `str(e)` form. -/
inductive AwsError where
  | clientError (code : String) (message : String) (details : String)
  | otherError (message : String)
  deriving Repr, DecidableEq

/-- `handle_aws_error_inline` of `server.py` (lines 53-70): a `ClientError`
maps to an envelope with `error_code`/`error_message`/`details`, any other
exception to an envelope with only `error_message`. -/
def handle_aws_error_inline (operation_name : String) (e : AwsError) : Envelope :=
  match e with
  | .clientError code message details =>
      let _ := operation_name
      [("error", Value.bool true), ("error_code", Value.str code),
       ("error_message", Value.str message), ("details", Value.str details)]
  | .otherError message =>
      let _ := operation_name
      [("error", Value.bool true), ("error_message", Value.str message)]

/-! ## The client registry (`AWSClientManager`) -/

/-- The mutable state of an `AWSClientManager` object, with bookkeeping to
express handle identity: client handles are numbered in construction order
(`nextHandle` is the next fresh number) and `identityChecks` counts the
`sts.get_caller_identity()` validation calls that were issued. -/
structure ManagerState where
  clients : List (String × Nat)
  session : Option Unit
  identityChecks : Nat
  nextHandle : Nat
  deriving Repr, DecidableEq

/-- The state of a freshly constructed `AWSClientManager` (`__init__`). -/
def initialState : ManagerState :=
  { clients := [], session := none, identityChecks := 0, nextHandle := 0 }

/-- The process environment seen by session initialization: the identity
check succeeds, raises `NoCredentialsError`, or raises some other
exception whose `str` form is `m`. -/
inductive SessionEnv where
  | ok
  | noCreds
  | idFail (m : String)
  deriving Repr, DecidableEq

/-- The fixed guidance message raised when no credentials are discoverable
(`server.py` line 37). -/
def credsGuidance : String :=
  "AWS credentials not configured. Please configure AWS CLI or set environment variables."

/-- `AWSClientManager.get_session` (`server.py` lines 28-40).  When
`self._session` is unset it assigns `self._session = boto3.Session()`
FIRST and only then builds an STS client and calls `get_caller_identity()`;
a failing check therefore leaves the session assigned.  The STS client is a
direct `session.client` call (it consumes a fresh handle number but is not
stored in `_clients`).  Errors carry the `str` form of the raised
exception; the mutated state is returned alongside either outcome. -/
def get_session (env : SessionEnv) (st : ManagerState) :
    Except String Unit × ManagerState :=
  match st.session with
  | some s => (Except.ok s, st)
  | none =>
      let st1 : ManagerState :=
        { st with session := some (), nextHandle := st.nextHandle + 1,
                  identityChecks := st.identityChecks + 1 }
      match env with
      | .ok => (Except.ok (), st1)
      | .noCreds => (Except.error credsGuidance, st1)
      | .idFail m => (Except.error ("Failed to initialize AWS session: " ++ m), st1)

/-- `region or 'default'`: Python `or` takes the right operand when the
left one is falsy (`None` or the empty string). -/
def effRegion : Option String → String
  | none => "default"
  | some r => if r = "" then "default" else r

/-- The cache key `f"{service_name}_{region or 'default'}"`
(`server.py` line 44). -/
def clientKey (service_name : String) (region : Option String) : String :=
  service_name ++ "_" ++ effRegion region

/-- `AWSClientManager.get_client` (`server.py` lines 42-48): return the
cached handle under the key when present; otherwise obtain the session
(validating it on first use) and construct, store and return a fresh
handle. -/
def get_client (env : SessionEnv) (service_name : String) (region : Option String)
    (st : ManagerState) : Except String Nat × ManagerState :=
  let key := clientKey service_name region
  match alookup key st.clients with
  | some h => (Except.ok h, st)
  | none =>
      match get_session env st with
      | (Except.error m, st1) => (Except.error m, st1)
      | (Except.ok _, st1) =>
          let h := st1.nextHandle
          (Except.ok h,
           { st1 with clients := (key, h) :: st1.clients, nextHandle := h + 1 })

/-- Run a sequence of `get_client` calls, threading the manager state. -/
def runCalls (env : SessionEnv) : List (String × Option String) → ManagerState → ManagerState
  | [], st => st
  | (svc, r) :: rest, st => runCalls env rest (get_client env svc r st).2

/-- Registry invariant: cached handle numbers are pairwise distinct and
below the fresh counter. -/
def Inv (st : ManagerState) : Prop :=
  (st.clients.map Prod.snd).Nodup ∧ ∀ p ∈ st.clients, p.2 < st.nextHandle

/-! ## Tools of `server.py` (the minimal server)

Each tool wraps its whole body in `try/except`, building a success envelope
from the provider response and otherwise delegating to
`handle_aws_error_inline`.  The provider call's outcome (including any
exception raised inside the `try` block) is the tool's `Except` input. -/

/-- `Value.str` around an optional string, `Value.null` for Python `None`
(the result of `dict.get` on an absent key). -/
def optStr : Option String → Value
  | some s => Value.str s
  | none => Value.null

/-- An EC2 instance as the provider describes it, restricted to the fields
the tools project (`State` is flattened to `instance['State']['Name']`,
`Tags` is the list of `Key`/`Value` pairs, defaulting to `[]`). -/
structure Ec2Instance where
  instanceId : String
  instanceType : String
  stateName : String
  launchTimeIso : String
  publicIp : Option String
  privateIp : Option String
  tags : List (String × String)
  deriving Repr, DecidableEq

/-- The per-instance dictionary built by `list_ec2_instances`
(`server.py` lines 121-129). -/
def instanceEntry (i : Ec2Instance) : Value :=
  .dict [("InstanceId", .str i.instanceId),
         ("InstanceType", .str i.instanceType),
         ("State", .str i.stateName),
         ("LaunchTime", .str i.launchTimeIso),
         ("PublicIpAddress", optStr i.publicIp),
         ("PrivateIpAddress", optStr i.privateIp),
         ("Tags", .list (i.tags.map fun t => .dict [("Key", .str t.1), ("Value", .str t.2)]))]

/-- Model of the AWS `DescribeInstances` filter semantics (behavior of the
external provider, not repository code): an instance matches a
`{'Name': name, 'Values': values}` filter when the named attribute takes
one of the listed values; `instance-state-name` selects on the state name,
`tag:k` on the value of tag `k`. -/
def matchesFilter (i : Ec2Instance) (name : String) (values : List String) : Bool :=
  if name = "instance-state-name" then values.contains i.stateName
  else if name.startsWith "tag:" then
    match alookup (name.drop 4) i.tags with
    | some v => values.contains v
    | none => false
  else false

/-- Model of the provider side of `ec2.describe_instances` (external
behavior): the region's instances that satisfy every filter, in one
reservation; with no `Filters` parameter, all instances. -/
def describeInstancesModel (pool : List Ec2Instance)
    (filters : Option (List (String × List String))) : List (List Ec2Instance) :=
  match filters with
  | none => [pool]
  | some fs => [pool.filter fun i => fs.all fun f => matchesFilter i f.1 f.2]

/-- `get_caller_identity` of `server.py` (lines 73-93), as a function of
the outcome of the `try` block's STS call. -/
def sv_get_caller_identity (r : Except AwsError (List (String × Value))) : Envelope :=
  match r with
  | .ok response => [("success", Value.bool true), ("identity", Value.dict response)]
  | .error e => handle_aws_error_inline "get_caller_identity" e

/-- `list_ec2_instances` of `server.py` (lines 96-137): `describe_params`
carries a `Filters` entry only when the `filters` dict is truthy (non-empty);
the reservations' instances are flattened and projected; any exception
yields the uniform error envelope. -/
def list_ec2_instances
    (describe : Option (List (String × List String)) →
      Except AwsError (List (List Ec2Instance)))
    (filters : Option (List (String × List String))) : Envelope :=
  match describe (match filters with
      | none => none
      | some fs => if fs.isEmpty then none else some fs) with
  | .ok reservations =>
      let instances := reservations.flatten.map instanceEntry
      [("success", Value.bool true), ("instances", Value.list instances),
       ("count", Value.nat instances.length)]
  | .error e => handle_aws_error_inline "list_ec2_instances" e

/-- `list_vpcs` of `server.py` (lines 140-159), over the `Vpcs` field of
the provider response. -/
def list_vpcs (r : Except AwsError Value) : Envelope :=
  match r with
  | .ok vpcs => [("success", Value.bool true), ("vpcs", vpcs)]
  | .error e => handle_aws_error_inline "list_vpcs" e

/-- `list_s3_buckets` of `server.py` (lines 162-182), over the `Buckets`
and `Owner` fields of the provider response. -/
def list_s3_buckets (r : Except AwsError (Value × Value)) : Envelope :=
  match r with
  | .ok response => [("success", Value.bool true), ("buckets", response.1),
                     ("owner", response.2)]
  | .error e => handle_aws_error_inline "list_s3_buckets" e

/-- An RDS instance as the provider describes it, restricted to the fields
`list_rds_instances` projects (`Endpoint`/`Port` come from nested
`dict.get` chains and may be `None`). -/
structure RdsDbInstance where
  dbInstanceIdentifier : String
  dbInstanceClass : String
  engine : String
  dbInstanceStatus : String
  endpointAddress : Option String
  endpointPort : Option Nat
  allocatedStorage : Nat
  multiAZ : Bool
  deriving Repr, DecidableEq

/-- The per-instance dictionary built by `list_rds_instances`
(`server.py` lines 201-210). -/
def rdsEntry (d : RdsDbInstance) : Value :=
  .dict [("DBInstanceIdentifier", .str d.dbInstanceIdentifier),
         ("DBInstanceClass", .str d.dbInstanceClass),
         ("Engine", .str d.engine),
         ("DBInstanceStatus", .str d.dbInstanceStatus),
         ("Endpoint", optStr d.endpointAddress),
         ("Port", match d.endpointPort with | some p => Value.nat p | none => Value.null),
         ("AllocatedStorage", .nat d.allocatedStorage),
         ("MultiAZ", .bool d.multiAZ)]

/-- `list_rds_instances` of `server.py` (lines 185-217). -/
def list_rds_instances (r : Except AwsError (List RdsDbInstance)) : Envelope :=
  match r with
  | .ok dbs => [("success", Value.bool true),
                ("db_instances", Value.list (dbs.map rdsEntry))]
  | .error e => handle_aws_error_inline "list_rds_instances" e

/-- `list_lambda_functions` of `server.py` (lines 220-239), over the
`Functions` field of the provider response. -/
def list_lambda_functions (r : Except AwsError Value) : Envelope :=
  match r with
  | .ok fns => [("success", Value.bool true), ("functions", fns)]
  | .error e => handle_aws_error_inline "list_lambda_functions" e

/-- `get_aws_regions` of `server.py` (lines 242-258), over the `Regions`
field of the provider response. -/
def get_aws_regions (r : Except AwsError Value) : Envelope :=
  match r with
  | .ok regions => [("success", Value.bool true), ("regions", regions)]
  | .error e => handle_aws_error_inline "get_aws_regions" e

/-- Full pipeline of the `get_caller_identity` tool: fetch the STS client
through the registry, then issue the call; an exception from either step
is caught at the tool boundary (a registry failure is a plain `Exception`,
hence unclassified). -/
def sv_get_caller_identity_run (env : SessionEnv) (region : Option String)
    (stsResult : Except AwsError (List (String × Value))) (st : ManagerState) :
    Envelope × ManagerState :=
  match get_client env "sts" region st with
  | (Except.error m, st1) =>
      (handle_aws_error_inline "get_caller_identity" (.otherError m), st1)
  | (Except.ok _, st1) => (sv_get_caller_identity stsResult, st1)

/-! ## `simple_server.py` -/

/-- `get_caller_identity` of `simple_server.py` (lines 53-86): the same
classification inlined per tool, without the `details` key. -/
def ss_get_caller_identity (r : Except AwsError (List (String × Value))) : Envelope :=
  match r with
  | .ok response => [("success", Value.bool true), ("identity", Value.dict response)]
  | .error (.clientError code message _) =>
      [("error", Value.bool true), ("error_code", Value.str code),
       ("error_message", Value.str message)]
  | .error (.otherError message) =>
      [("error", Value.bool true), ("error_message", Value.str message)]

/-! ## `server_backup.py` (the comprehensive server) -/

/-- The `EC2InstanceRequest` pydantic model of `server_backup.py`
(lines 24-34); optional fields default to `None`. -/
structure EC2InstanceRequest where
  image_id : String
  instance_type : String := "t3.micro"
  key_name : Option String := none
  security_group_ids : Option (List String) := none
  subnet_id : Option String := none
  user_data : Option String := none
  tags : Option (List (String × String)) := none
  min_count : Nat := 1
  max_count : Nat := 1
  deriving Repr, DecidableEq

/-- The `launch_params` dict built by `launch_ec2_instance`
(`server_backup.py` lines 175-192): the four required keys always, then a
key per optional field guarded by a Python truth test (`None` and the
empty string/list are falsy and produce no key at all). -/
def launch_params (request : EC2InstanceRequest) : Envelope :=
  [("ImageId", Value.str request.image_id),
   ("MinCount", Value.nat request.min_count),
   ("MaxCount", Value.nat request.max_count),
   ("InstanceType", Value.str request.instance_type)]
  ++ (match request.key_name with
      | some s => if s = "" then [] else [("KeyName", Value.str s)]
      | none => [])
  ++ (match request.security_group_ids with
      | some l => if l.isEmpty then []
                  else [("SecurityGroupIds", Value.list (l.map Value.str))]
      | none => [])
  ++ (match request.subnet_id with
      | some s => if s = "" then [] else [("SubnetId", Value.str s)]
      | none => [])
  ++ (match request.user_data with
      | some s => if s = "" then [] else [("UserData", Value.str s)]
      | none => [])

/-- `terminate_ec2_instance` of `server_backup.py` (lines 263-282): the
body has NO `try/except`, so an exception from the provider call leaves
the function as a raise (the `Except` error passes through) instead of an
envelope. -/
def terminate_ec2_instance (r : Except AwsError Value) :
    Except AwsError Envelope :=
  r.map fun terminating =>
    [("success", Value.bool true), ("terminating_instances", terminating)]

/-- The `VPCRequest` pydantic model of `server_backup.py` (lines 36-41). -/
structure VPCRequest where
  cidr_block : String
  enable_dns_hostnames : Bool := true
  enable_dns_support : Bool := true
  tags : Option (List (String × String)) := none
  deriving Repr, DecidableEq

/-- The provider's `response['Vpc']` for a `create_vpc` call: its `VpcId`
plus the remaining fields. -/
structure VpcInfo where
  vpcId : String
  fields : List (String × Value) := []
  deriving Repr

/-- The dictionary form of a provider `Vpc` response. -/
def vpcDict (v : VpcInfo) : Value :=
  .dict (("VpcId", Value.str v.vpcId) :: v.fields)

/-- A call issued to the EC2 provider by `create_vpc`, recorded for
verification of the call sequence. -/
inductive Ec2Call where
  | createVpc (cidrBlock : String)
  | modifyVpcAttribute (vpcId : String) (attributeName : String)
  | createTags (resources : List String) (tags : List (String × String))
  deriving Repr, DecidableEq

/-- Whether a recorded call is a `create_tags` invocation. -/
def isCreateTags : Ec2Call → Bool
  | .createTags _ _ => true
  | _ => false

/-- `create_vpc` of `server_backup.py` (lines 312-342), on the successful
path (the body has no `try/except`): create the VPC, read `VpcId` from the
response, issue the two DNS attribute calls when the flags are set, then
`create_tags` on `[vpc_id]` with the `{'Key': k, 'Value': v}` list when
`request.tags` is truthy; the envelope carries the create response's
`Vpc`.  Returns the envelope together with the issued provider calls. -/
def create_vpc (request : VPCRequest) (vpcResponse : VpcInfo) :
    Envelope × List Ec2Call :=
  let vpc_id := vpcResponse.vpcId
  let calls := [Ec2Call.createVpc request.cidr_block]
  let calls := calls ++
    (if request.enable_dns_hostnames
     then [Ec2Call.modifyVpcAttribute vpc_id "EnableDnsHostnames"] else [])
  let calls := calls ++
    (if request.enable_dns_support
     then [Ec2Call.modifyVpcAttribute vpc_id "EnableDnsSupport"] else [])
  let calls := calls ++
    (match request.tags with
     | some ts => if ts.isEmpty then [] else [Ec2Call.createTags [vpc_id] ts]
     | none => [])
  ([("success", Value.bool true), ("vpc", vpcDict vpcResponse)], calls)

/-! ## `cli.py` -/

/-- `MCPServerCLI._test_connection` (lines 178-199): exit 0 when the
envelope's `success` entry is truthy, 1 otherwise; any exception from the
tool call is caught and yields 1. -/
def cli_test_connection (r : Except AwsError Envelope) : Nat :=
  match r with
  | .ok result => if getTruthy result "success" then 0 else 1
  | .error _ => 1

/-- One health check's outcome: a raised exception counts as failed,
otherwise the envelope's `success` entry decides (`result.get('success',
False)`). -/
def checkSuccess : Except AwsError Envelope → Bool
  | .ok result => getTruthy result "success"
  | .error _ => false

/-- `MCPServerCLI._health_check` (lines 201-241): exit 0 exactly when
every check passed (`successful == total`). -/
def cli_health_check (checks : List (Except AwsError Envelope)) : Nat :=
  let successful := (checks.filter checkSuccess).length
  if successful = checks.length then 0 else 1

/-- The resource names `_list_resources` dispatches on. -/
def listResourceNames : List String :=
  ["ec2", "vpcs", "s3", "lambda", "iam-roles", "cloudformation",
   "regions", "availability-zones"]

/-- `MCPServerCLI._list_resources` (lines 243-290): 1 when no or an
unknown resource is named and 1 when the tool call raises; otherwise the
envelope is printed and the function returns 0 WITHOUT consulting its
`success`/`error` entries. -/
def cli_list_resources (resource : Option String)
    (toolResult : Except AwsError Envelope) : Nat :=
  match resource with
  | none => 1
  | some res =>
      if listResourceNames.contains res then
        match toolResult with
        | .ok _result => 0
        | .error _ => 1
      else 1

/-- `MCPServerCLI._create_resources` (lines 292-345): for the known
resources the envelope's `success` entry decides 0 vs 1; no or an unknown
resource, or a raised exception, yields 1. -/
def cli_create_resources (resource : Option String)
    (toolResult : Except AwsError Envelope) : Nat :=
  match resource with
  | none => 1
  | some res =>
      if ["vpc", "ec2", "s3"].contains res then
        match toolResult with
        | .ok result => if getTruthy result "success" then 0 else 1
        | .error _ => 1
      else 1

/-- A CLI invocation with the outcomes of the tool calls it would make. -/
inductive CliInvocation where
  | testConnection (r : Except AwsError Envelope)
  | healthCheck (checks : List (Except AwsError Envelope))
  | listResources (resource : Option String) (r : Except AwsError Envelope)
  | createResources (resource : Option String) (r : Except AwsError Envelope)
  | noCommand

/-- `MCPServerCLI.run` (lines 148-176): dispatch on the subcommand; with
no subcommand, print help and return 1. -/
def cli_run : CliInvocation → Nat
  | .testConnection r => cli_test_connection r
  | .healthCheck checks => cli_health_check checks
  | .listResources resource r => cli_list_resources resource r
  | .createResources resource r => cli_create_resources resource r
  | .noCommand => 1

/-! ## Derived observations on envelopes -/

/-- The two legal envelope states of §3 of the spec: a `success: true`
envelope without an `error` key, or an `error: true` envelope without a
`success` key — never both keys, never neither. -/
def exclusiveEnvelope (env : Envelope) : Prop :=
  (alookup "success" env = some (Value.bool true) ∧ alookup "error" env = none) ∨
  (alookup "error" env = some (Value.bool true) ∧ alookup "success" env = none)

/-- A request's optional string field is populated when it is set and
non-empty (the Python truth test the code applies to it). -/
def strPopulated : Option String → Bool
  | some s => s != ""
  | none => false

/-- A request's optional list field is populated when it is set and
non-empty (the Python truth test the code applies to it). -/
def listPopulated : Option (List String) → Bool
  | some l => !l.isEmpty
  | none => false

/-- The `VpcId` identifier inside the `vpc` payload of an envelope. -/
def payloadVpcId (env : Envelope) : Option Value :=
  match alookup "vpc" env with
  | some (Value.dict d) => alookup "VpcId" d
  | _ => none

/-- The `instances` list of an envelope (empty when absent). -/
def envInstances (env : Envelope) : List Value :=
  match alookup "instances" env with
  | some (Value.list l) => l
  | _ => []

/-- The `State` field of a per-instance entry dictionary. -/
def entryState : Value → Option Value
  | Value.dict d => alookup "State" d
  | _ => none

/-! ## Lemmas about the client registry -/

theorem alookup_mem {α : Type} {k : String} {v : α} :
    ∀ {l : List (String × α)}, alookup k l = some v → (k, v) ∈ l := by
  intro l
  induction l with
  | nil => intro h; simp [alookup] at h
  | cons p rest ih =>
      intro h
      obtain ⟨k1, w⟩ := p
      by_cases hk : k1 = k
      · simp [alookup, hk] at h
        simp [hk, h]
      · simp [alookup, hk] at h
        exact List.mem_cons_of_mem _ (ih h)

theorem nodup_alookup_ne {l : List (String × Nat)} (hnd : (l.map Prod.snd).Nodup)
    {k1 k2 : String} {v1 v2 : Nat} (h1 : alookup k1 l = some v1)
    (h2 : alookup k2 l = some v2) (hk : k1 ≠ k2) : v1 ≠ v2 := by
  induction l with
  | nil => simp [alookup] at h1
  | cons p rest ih =>
      obtain ⟨k, v⟩ := p
      simp only [List.map_cons, List.nodup_cons] at hnd
      by_cases e1 : k = k1 <;> by_cases e2 : k = k2
      · exact absurd (e1 ▸ e2) hk
      · simp [alookup, e1] at h1
        simp [alookup, e2] at h2
        subst h1
        intro hv
        exact hnd.1 (hv ▸ List.mem_map_of_mem Prod.snd (alookup_mem h2))
      · simp [alookup, e1] at h1
        simp [alookup, e2] at h2
        subst h2
        intro hv
        exact hnd.1 (hv ▸ List.mem_map_of_mem Prod.snd (alookup_mem h1))
      · simp [alookup, e1] at h1
        simp [alookup, e2] at h2
        exact ih hnd.2 h1 h2

theorem Inv.lt_of_alookup {st : ManagerState} (h : Inv st) {k : String} {v : Nat}
    (hl : alookup k st.clients = some v) : v < st.nextHandle :=
  h.2 _ (alookup_mem hl)

theorem Inv.ne_of_alookup {st : ManagerState} (h : Inv st) {k1 k2 : String}
    {v1 v2 : Nat} (h1 : alookup k1 st.clients = some v1)
    (h2 : alookup k2 st.clients = some v2) (hk : k1 ≠ k2) : v1 ≠ v2 :=
  nodup_alookup_ne h.1 h1 h2 hk

theorem get_client_hit {env : SessionEnv} {svc : String} {r : Option String}
    {st : ManagerState} {h : Nat}
    (hl : alookup (clientKey svc r) st.clients = some h) :
    get_client env svc r st = (Except.ok h, st) := by
  simp [get_client, hl]

theorem get_client_miss_some (env : SessionEnv) {svc : String} {r : Option String}
    {st : ManagerState}
    (hl : alookup (clientKey svc r) st.clients = none) (hs : st.session = some ()) :
    get_client env svc r st =
      (Except.ok st.nextHandle,
       { st with clients := (clientKey svc r, st.nextHandle) :: st.clients,
                 nextHandle := st.nextHandle + 1 }) := by
  simp [get_client, get_session, hl, hs]

theorem get_client_miss_none_ok {svc : String} {r : Option String}
    {st : ManagerState}
    (hl : alookup (clientKey svc r) st.clients = none) (hs : st.session = none) :
    get_client .ok svc r st =
      (Except.ok (st.nextHandle + 1),
       { clients := (clientKey svc r, st.nextHandle + 1) :: st.clients,
         session := some (), identityChecks := st.identityChecks + 1,
         nextHandle := st.nextHandle + 2 }) := by
  simp [get_client, get_session, hl, hs]

theorem get_client_miss_none_noCreds {svc : String} {r : Option String}
    {st : ManagerState}
    (hl : alookup (clientKey svc r) st.clients = none) (hs : st.session = none) :
    get_client .noCreds svc r st =
      (Except.error credsGuidance,
       { st with session := some (), identityChecks := st.identityChecks + 1,
                 nextHandle := st.nextHandle + 1 }) := by
  simp [get_client, get_session, hl, hs]

/-- In the environment where credentials validate, `get_client` always
succeeds and its handle is cached under the key in the post-state. -/
theorem get_client_ok_cached (svc : String) (r : Option String) (st : ManagerState) :
    ∃ h, (get_client .ok svc r st).1 = Except.ok h ∧
      alookup (clientKey svc r) (get_client .ok svc r st).2.clients = some h := by
  cases hl : alookup (clientKey svc r) st.clients with
  | some h => exact ⟨h, by rw [get_client_hit hl], by rw [get_client_hit hl]; exact hl⟩
  | none =>
      cases hs : st.session with
      | some u =>
          cases u
          refine ⟨st.nextHandle, ?_, ?_⟩
          · rw [get_client_miss_some .ok hl hs]
          · rw [get_client_miss_some .ok hl hs]; simp [alookup]
      | none =>
          refine ⟨st.nextHandle + 1, ?_, ?_⟩
          · rw [get_client_miss_none_ok hl hs]
          · rw [get_client_miss_none_ok hl hs]; simp [alookup]

theorem Inv.cons_fresh {cl : List (String × Nat)} {n m : Nat} {s1 s2 : Option Unit}
    {i1 i2 : Nat} (h : Inv ⟨cl, s1, i1, n⟩) (key : String) (hm : n ≤ m) :
    Inv ⟨(key, m) :: cl, s2, i2, m + 1⟩ := by
  obtain ⟨hnd, hlt⟩ := h
  constructor
  · simp only [List.map_cons, List.nodup_cons]
    refine ⟨fun hmem => ?_, hnd⟩
    obtain ⟨p, hp, hpe⟩ := List.mem_map.mp hmem
    exact absurd hpe (Nat.ne_of_lt (lt_of_lt_of_le (hlt p hp) hm))
  · intro p hp
    rcases List.mem_cons.mp hp with h | h
    · simp [h]
    · exact lt_trans (lt_of_lt_of_le (hlt p h) hm) (Nat.lt_succ_self m)

theorem Inv.get_client_post {st : ManagerState} (hInv : Inv st) (svc : String)
    (r : Option String) : Inv (get_client .ok svc r st).2 := by
  cases hl : alookup (clientKey svc r) st.clients with
  | some h => rw [get_client_hit hl]; exact hInv
  | none =>
      cases hs : st.session with
      | some u =>
          cases u
          rw [get_client_miss_some .ok hl hs]
          exact Inv.cons_fresh (by exact hInv) _ (Nat.le_refl _)
      | none =>
          rw [get_client_miss_none_ok hl hs]
          exact Inv.cons_fresh (by exact hInv) _ (Nat.le_succ _)

/-- Once the session exists, `get_client` never re-validates: the session
stays set and the identity-check count is unchanged. -/
theorem get_client_ok_session (svc : String) (r : Option String) {st : ManagerState}
    (hs : st.session = some ()) :
    (get_client .ok svc r st).2.session = some () ∧
    (get_client .ok svc r st).2.identityChecks = st.identityChecks := by
  cases hl : alookup (clientKey svc r) st.clients with
  | some h => rw [get_client_hit hl]; exact ⟨hs, rfl⟩
  | none => rw [get_client_miss_some .ok hl hs]; exact ⟨hs, rfl⟩

theorem runCalls_ok_session (calls : List (String × Option String)) :
    ∀ {st : ManagerState}, st.session = some () →
    (runCalls .ok calls st).session = some () ∧
    (runCalls .ok calls st).identityChecks = st.identityChecks := by
  induction calls with
  | nil => intro st hs; exact ⟨hs, rfl⟩
  | cons c rest ih =>
      intro st hs
      obtain ⟨hs1, hi1⟩ := get_client_ok_session c.1 c.2 hs
      obtain ⟨hs2, hi2⟩ := ih hs1
      exact ⟨hs2, by rw [runCalls, hi2, hi1]⟩

/-- The very first `get_client` call on a fresh manager initializes and
validates the session: exactly one identity check so far. -/
theorem get_client_initial (svc : String) (r : Option String) :
    (get_client .ok svc r initialState).2.session = some () ∧
    (get_client .ok svc r initialState).2.identityChecks = 1 := by
  rw [get_client_miss_none_ok (by rfl) (by rfl)]
  exact ⟨rfl, rfl⟩

/-- Repeating a `get_client` call returns the identical handle and leaves
the state unchanged. -/
theorem get_client_ok_idem (svc : String) (r : Option String) (st : ManagerState) :
    get_client .ok svc r (get_client .ok svc r st).2 =
      ((get_client .ok svc r st).1, (get_client .ok svc r st).2) := by
  obtain ⟨h, h1, h2⟩ := get_client_ok_cached svc r st
  rw [get_client_hit h2, h1]

/-- Two calls whose `(service, region)` pairs derive the same cache key
return the same handle. -/
theorem get_client_ok_same_key {svc1 svc2 : String} {r1 r2 : Option String}
    (st : ManagerState) (hk : clientKey svc1 r1 = clientKey svc2 r2) :
    (get_client .ok svc2 r2 (get_client .ok svc1 r1 st).2).1 =
      (get_client .ok svc1 r1 st).1 := by
  obtain ⟨h, h1, h2⟩ := get_client_ok_cached svc1 r1 st
  rw [get_client_hit (hk ▸ h2), h1]

/-- Two calls whose cache keys differ return distinct handles (given the
registry invariant). -/
theorem get_client_ok_distinct {st : ManagerState} (hInv : Inv st) {svc1 svc2 : String}
    {r1 r2 : Option String} {h1 h2 : Nat}
    (hk : clientKey svc1 r1 ≠ clientKey svc2 r2)
    (e1 : (get_client .ok svc1 r1 st).1 = Except.ok h1)
    (e2 : (get_client .ok svc2 r2 (get_client .ok svc1 r1 st).2).1 = Except.ok h2) :
    h1 ≠ h2 := by
  obtain ⟨h, hfst, hcached⟩ := get_client_ok_cached svc1 r1 st
  rw [hfst] at e1
  injection e1 with e1
  subst e1
  have hInv1 : Inv (get_client .ok svc1 r1 st).2 := hInv.get_client_post svc1 r1
  set st1 := (get_client .ok svc1 r1 st).2 with hst1
  cases hl2 : alookup (clientKey svc2 r2) st1.clients with
  | some h' =>
      rw [get_client_hit hl2] at e2
      injection e2 with e2
      subst e2
      exact hInv1.ne_of_alookup hcached hl2 hk
  | none =>
      cases hs : st1.session with
      | some u =>
          cases u
          rw [get_client_miss_some .ok hl2 hs] at e2
          injection e2 with e2
          subst e2
          exact Nat.ne_of_lt (hInv1.lt_of_alookup hcached)
      | none =>
          rw [get_client_miss_none_ok hl2 hs] at e2
          injection e2 with e2
          subst e2
          exact Nat.ne_of_lt (lt_trans (hInv1.lt_of_alookup hcached) (Nat.lt_succ_self _))

/-! ## Claims -/

/-- C1, counterexample: the claim says calling `get_client` with a
different region constructs a distinct handle, but the regions `None` and
`"default"` are different arguments that alias to the same cache key
`"s3_default"`, so the second call returns the very same handle (number 1)
instead of constructing a new one. -/
theorem claim1_counterexample :
    (none : Option String) ≠ some "default"
  ∧ (get_client .ok "s3" none initialState).1 = Except.ok 1
  ∧ (get_client .ok "s3" (some "default")
       (get_client .ok "s3" none initialState).2).1 = Except.ok 1 :=
  ⟨by simp, rfl, rfl⟩

/-- C1 (amended): for every reachable registry state (any state satisfying
the registry invariant), `get_client` returns the cached handle when one is
stored under the `(service, region)` key and otherwise constructs and
stores a new one; the credential identity check is performed exactly once,
on the first-ever call; repeating a call with the same `(service, region)`
returns the same handle and leaves the state unchanged; and calling with a
different region constructs a distinct handle exactly when the two regions
derive different cache keys — regions aliasing to the same key (such as
`None` vs `"default"`) share one handle. -/
theorem claim1_registry_contract (st : ManagerState) (hInv : Inv st)
    (svc : String) (r1 r2 : Option String) (h1 h2 : Nat)
    (e1 : (get_client .ok svc r1 st).1 = Except.ok h1)
    (e2 : (get_client .ok svc r2 (get_client .ok svc r1 st).2).1 = Except.ok h2)
    (calls : List (String × Option String)) (hne : calls ≠ []) :
    get_client .ok svc r1 (get_client .ok svc r1 st).2 =
      ((get_client .ok svc r1 st).1, (get_client .ok svc r1 st).2)
  ∧ (clientKey svc r1 = clientKey svc r2 → h1 = h2)
  ∧ (clientKey svc r1 ≠ clientKey svc r2 → h1 ≠ h2)
  ∧ (runCalls .ok calls initialState).identityChecks = 1 := by
  refine ⟨get_client_ok_idem svc r1 st, ?_, ?_, ?_⟩
  · intro hk
    have := get_client_ok_same_key st hk
    rw [e1, e2] at this
    injection this with this
    exact this.symm
  · exact fun hk => get_client_ok_distinct hInv hk e1 e2
  · match calls, hne with
    | c :: rest, _ =>
        rw [runCalls]
        obtain ⟨hs, hi⟩ := get_client_initial c.1 c.2
        obtain ⟨_, hi2⟩ := runCalls_ok_session rest hs
        rw [hi2, hi]

/-- C1 witness: the amended contract evaluated on a fresh manager with
service `ec2` and regions `us-east-1` / `us-west-2`. -/
theorem claim1_witness :
    get_client .ok "ec2" (some "us-east-1")
        (get_client .ok "ec2" (some "us-east-1") initialState).2 =
      ((get_client .ok "ec2" (some "us-east-1") initialState).1,
       (get_client .ok "ec2" (some "us-east-1") initialState).2)
  ∧ (clientKey "ec2" (some "us-east-1") = clientKey "ec2" (some "us-west-2") → 1 = 2)
  ∧ (clientKey "ec2" (some "us-east-1") ≠ clientKey "ec2" (some "us-west-2") → 1 ≠ 2)
  ∧ (runCalls .ok [("ec2", some "us-east-1")] initialState).identityChecks = 1 :=
  claim1_registry_contract initialState ⟨List.nodup_nil, by simp [initialState]⟩
    "ec2" (some "us-east-1") (some "us-west-2") 1 2 rfl rfl
    [("ec2", some "us-east-1")] (by simp)

/-- C10: the cache key is the underscore-join of the service and the
defaulted region, so `get_client(s, None)` and `get_client(s, "default")`
resolve to the same key, and any two `(service, region)` pairs whose keys
coincide share one cached handle: the second call returns exactly what the
first returned. -/
theorem claim10_cache_key_aliasing (s svc1 svc2 : String) (r1 r2 : Option String)
    (st : ManagerState) (hk : clientKey svc1 r1 = clientKey svc2 r2) :
    clientKey s none = clientKey s (some "default")
  ∧ clientKey s r1 = s ++ "_" ++ effRegion r1
  ∧ (get_client .ok svc2 r2 (get_client .ok svc1 r1 st).2).1 =
      (get_client .ok svc1 r1 st).1 :=
  ⟨by simp [clientKey, effRegion], rfl, get_client_ok_same_key st hk⟩

/-- C10 witness: `get_client("s3", None)` then `get_client("s3",
"default")` on a fresh manager return the same handle. -/
theorem claim10_witness :
    clientKey "sts" none = clientKey "sts" (some "default")
  ∧ clientKey "sts" none = "sts" ++ "_" ++ effRegion none
  ∧ (get_client .ok "s3" (some "default")
       (get_client .ok "s3" none initialState).2).1 =
      (get_client .ok "s3" none initialState).1 :=
  claim10_cache_key_aliasing "sts" "s3" "s3" none (some "default") initialState rfl

/-- C2: a classified provider fault yields `error=true` with `error_code`
and `error_message` equal to the fault's code and message; any other
exception yields `error=true` with `error_message` equal to its string
form and no `error_code` key.  Stated for the shared handler of
`server.py` (which every tool's `except` branch returns), for the
`get_caller_identity` tool boundary, and for the inlined handler of
`simple_server.py`. -/
theorem claim2_error_classification (op code msg det m : String) :
    (alookup "error" (handle_aws_error_inline op (.clientError code msg det))
        = some (Value.bool true)
     ∧ alookup "error_code" (handle_aws_error_inline op (.clientError code msg det))
        = some (Value.str code)
     ∧ alookup "error_message" (handle_aws_error_inline op (.clientError code msg det))
        = some (Value.str msg))
  ∧ (alookup "error" (handle_aws_error_inline op (.otherError m)) = some (Value.bool true)
     ∧ alookup "error_message" (handle_aws_error_inline op (.otherError m))
        = some (Value.str m)
     ∧ alookup "error_code" (handle_aws_error_inline op (.otherError m)) = none)
  ∧ (∀ e : AwsError, sv_get_caller_identity (Except.error e)
        = handle_aws_error_inline "get_caller_identity" e)
  ∧ (alookup "error" (ss_get_caller_identity (Except.error (.clientError code msg det)))
        = some (Value.bool true)
     ∧ alookup "error_code" (ss_get_caller_identity (Except.error (.clientError code msg det)))
        = some (Value.str code)
     ∧ alookup "error_message" (ss_get_caller_identity (Except.error (.clientError code msg det)))
        = some (Value.str msg))
  ∧ (alookup "error_message" (ss_get_caller_identity (Except.error (.otherError m)))
        = some (Value.str m)
     ∧ alookup "error_code" (ss_get_caller_identity (Except.error (.otherError m))) = none) :=
  ⟨⟨rfl, rfl, rfl⟩, ⟨rfl, rfl, rfl⟩, fun _ => rfl, ⟨rfl, rfl, rfl⟩, ⟨rfl, rfl⟩⟩

/-- Every output of the shared error handler is an `error: true` envelope
without a `success` key. -/
theorem exclusiveEnvelope_handler (op : String) (e : AwsError) :
    exclusiveEnvelope (handle_aws_error_inline op e) := by
  cases e with
  | clientError code msg det => exact Or.inr ⟨rfl, rfl⟩
  | otherError m => exact Or.inr ⟨rfl, rfl⟩

/-- C3, counterexample: `terminate_ec2_instance` of `server_backup.py`
has no `try/except`, so when the underlying call raises, the exception
propagates out of the tool instead of being returned as an error
envelope — the claim's "for every tool" fails on this tool. -/
theorem claim3_counterexample :
    terminate_ec2_instance (Except.error (.otherError "Network timeout")) =
      Except.error (.otherError "Network timeout") := rfl

/-- C3 (amended): every tool of `server.py` (and of `simple_server.py`)
recovers every exception of the underlying call at the tool boundary and
returns exactly one of the two envelope states `{success: true, ...}` or
`{error: true, ...}` — never both keys, never neither; tools of
`server_backup.py` such as `terminate_ec2_instance` instead propagate the
exception. -/
theorem claim3_envelope_two_states
    (r1 : Except AwsError (List (String × Value)))
    (describe : Option (List (String × List String)) →
      Except AwsError (List (List Ec2Instance)))
    (filters : Option (List (String × List String)))
    (r3 : Except AwsError Value) (r4 : Except AwsError (Value × Value))
    (r5 : Except AwsError (List RdsDbInstance)) (r6 r7 : Except AwsError Value) :
    exclusiveEnvelope (sv_get_caller_identity r1)
  ∧ exclusiveEnvelope (list_ec2_instances describe filters)
  ∧ exclusiveEnvelope (list_vpcs r3)
  ∧ exclusiveEnvelope (list_s3_buckets r4)
  ∧ exclusiveEnvelope (list_rds_instances r5)
  ∧ exclusiveEnvelope (list_lambda_functions r6)
  ∧ exclusiveEnvelope (get_aws_regions r7)
  ∧ exclusiveEnvelope (ss_get_caller_identity r1) := by
  refine ⟨?_, ?_, ?_, ?_, ?_, ?_, ?_, ?_⟩
  · cases r1 with
    | ok resp => exact Or.inl ⟨rfl, rfl⟩
    | error e => exact exclusiveEnvelope_handler "get_caller_identity" e
  · unfold list_ec2_instances
    cases hd : describe (match filters with
        | none => none
        | some fs => if fs.isEmpty then none else some fs) with
    | ok reservations => exact Or.inl ⟨rfl, rfl⟩
    | error e => exact exclusiveEnvelope_handler "list_ec2_instances" e
  · cases r3 with
    | ok v => exact Or.inl ⟨rfl, rfl⟩
    | error e => exact exclusiveEnvelope_handler "list_vpcs" e
  · cases r4 with
    | ok v => exact Or.inl ⟨rfl, rfl⟩
    | error e => exact exclusiveEnvelope_handler "list_s3_buckets" e
  · cases r5 with
    | ok v => exact Or.inl ⟨rfl, rfl⟩
    | error e => exact exclusiveEnvelope_handler "list_rds_instances" e
  · cases r6 with
    | ok v => exact Or.inl ⟨rfl, rfl⟩
    | error e => exact exclusiveEnvelope_handler "list_lambda_functions" e
  · cases r7 with
    | ok v => exact Or.inl ⟨rfl, rfl⟩
    | error e => exact exclusiveEnvelope_handler "get_aws_regions" e
  · cases r1 with
    | ok resp => exact Or.inl ⟨rfl, rfl⟩
    | error e => cases e with
      | clientError code msg det => exact Or.inr ⟨rfl, rfl⟩
      | otherError m => exact Or.inr ⟨rfl, rfl⟩

/-- C4: the claim says a failed first credential validation leaves the
registry unusable, with every later `get_client` call failing.  The code
assigns `self._session` before the identity check, so the failed check
leaves the unvalidated session cached: the first call raises the guidance
error, but the very next call succeeds and returns a client handle —
contradicting both the claim and the code's own intent of validating the
session before use. -/
theorem claim4_failed_validation_not_sticky :
    (get_client .noCreds "ec2" (some "us-east-1") initialState).1 =
      Except.error credsGuidance
  ∧ (get_client .noCreds "ec2" (some "us-east-1")
       (get_client .noCreds "ec2" (some "us-east-1") initialState).2).1 =
      Except.ok 1
  ∧ (get_client .noCreds "ec2" (some "us-east-1") initialState).2.session = some () :=
  ⟨rfl, rfl, rfl⟩

/-- C5: when no credentials are discoverable, the session initialization
raises the fixed guidance message as a plain `Exception`, which any tool
surfaces as an unclassified error envelope: `error=true`, `error_message`
equal to the guidance text, and no `error_code` key (shown for the
`get_caller_identity` tool pipeline). -/
theorem claim5_credentials_error (st : ManagerState) (region : Option String)
    (stsResult : Except AwsError (List (String × Value)))
    (hmiss : alookup (clientKey "sts" region) st.clients = none)
    (hs : st.session = none) :
    (sv_get_caller_identity_run .noCreds region stsResult st).1 =
      [("error", Value.bool true), ("error_message", Value.str credsGuidance)]
  ∧ alookup "error_code" (sv_get_caller_identity_run .noCreds region stsResult st).1
      = none := by
  have h := @get_client_miss_none_noCreds "sts" region st hmiss hs
  constructor
  · simp [sv_get_caller_identity_run, h, handle_aws_error_inline]
  · simp [sv_get_caller_identity_run, h, handle_aws_error_inline, alookup]

/-- C5 witness: the credentials-missing envelope on a fresh manager. -/
theorem claim5_witness :
    (sv_get_caller_identity_run .noCreds (some "us-east-1") (Except.ok [])
        initialState).1 =
      [("error", Value.bool true), ("error_message", Value.str credsGuidance)]
  ∧ alookup "error_code"
      (sv_get_caller_identity_run .noCreds (some "us-east-1") (Except.ok [])
        initialState).1 = none :=
  claim5_credentials_error initialState (some "us-east-1") (Except.ok []) rfl rfl

/-- C6: the parameter set of the single `run_instances` call always
contains the required `ImageId`/`MinCount`/`MaxCount`/`InstanceType`
entries, and contains an entry for each optional field exactly when that
field is populated (set and non-empty, the Python truth test the code
applies), with the field's value unmodified; an unpopulated optional field
produces no key at all rather than a null value. -/
theorem claim6_launch_params_omission (r : EC2InstanceRequest) :
    alookup "ImageId" (launch_params r) = some (Value.str r.image_id)
  ∧ alookup "MinCount" (launch_params r) = some (Value.nat r.min_count)
  ∧ alookup "MaxCount" (launch_params r) = some (Value.nat r.max_count)
  ∧ alookup "InstanceType" (launch_params r) = some (Value.str r.instance_type)
  ∧ alookup "KeyName" (launch_params r) =
      (if strPopulated r.key_name then r.key_name.map Value.str else none)
  ∧ alookup "SecurityGroupIds" (launch_params r) =
      (if listPopulated r.security_group_ids
       then r.security_group_ids.map fun l => Value.list (l.map Value.str)
       else none)
  ∧ alookup "SubnetId" (launch_params r) =
      (if strPopulated r.subnet_id then r.subnet_id.map Value.str else none)
  ∧ alookup "UserData" (launch_params r) =
      (if strPopulated r.user_data then r.user_data.map Value.str else none) := by
  obtain ⟨i, t, kn, sg, sn, ud, tg, mn, mx⟩ := r
  refine ⟨?_, ?_, ?_, ?_, ?_, ?_, ?_, ?_⟩ <;>
    rcases kn with _ | ks <;> rcases sg with _ | gl <;> rcases sn with _ | ss <;>
    rcases ud with _ | us <;>
    simp [launch_params, alookup, strPopulated, listPopulated] <;>
    aesop

/-- C7: creating a network with CIDR `10.0.0.0/16` and tags
`{Name: "x"}`: on a successful provider run (whose reported `VpcId` is
non-empty) the envelope has `success=true` and its `vpc` payload carries
that non-empty identifier, and `create_tags` is invoked exactly once, on
`[vpc_id]`, with exactly the single `{Key: Name, Value: x}` pair. -/
theorem claim7_create_vpc_scenario (vpcResponse : VpcInfo)
    (hid : vpcResponse.vpcId ≠ "") :
    alookup "success"
        (create_vpc { cidr_block := "10.0.0.0/16", tags := some [("Name", "x")] }
          vpcResponse).1 = some (Value.bool true)
  ∧ payloadVpcId
        (create_vpc { cidr_block := "10.0.0.0/16", tags := some [("Name", "x")] }
          vpcResponse).1 = some (Value.str vpcResponse.vpcId)
  ∧ vpcResponse.vpcId ≠ ""
  ∧ (create_vpc { cidr_block := "10.0.0.0/16", tags := some [("Name", "x")] }
        vpcResponse).2.filter isCreateTags =
      [Ec2Call.createTags [vpcResponse.vpcId] [("Name", "x")]] := by
  refine ⟨rfl, ?_, hid, ?_⟩
  · simp [create_vpc, payloadVpcId, vpcDict, alookup]
  · simp [create_vpc, isCreateTags, List.filter]

/-- C7 witness: the scenario evaluated at a provider run returning
`vpc-123`. -/
theorem claim7_witness :
    alookup "success"
        (create_vpc { cidr_block := "10.0.0.0/16", tags := some [("Name", "x")] }
          ⟨"vpc-123", []⟩).1 = some (Value.bool true)
  ∧ payloadVpcId
        (create_vpc { cidr_block := "10.0.0.0/16", tags := some [("Name", "x")] }
          ⟨"vpc-123", []⟩).1 = some (Value.str (VpcInfo.vpcId ⟨"vpc-123", []⟩))
  ∧ VpcInfo.vpcId ⟨"vpc-123", []⟩ ≠ ""
  ∧ (create_vpc { cidr_block := "10.0.0.0/16", tags := some [("Name", "x")] }
        ⟨"vpc-123", []⟩).2.filter isCreateTags =
      [Ec2Call.createTags [VpcInfo.vpcId ⟨"vpc-123", []⟩] [("Name", "x")]] :=
  claim7_create_vpc_scenario ⟨"vpc-123", []⟩ (by simp)

/-- C8: listing EC2 instances with the filter
`instance-state-name=running` (against the modelled provider, which honors
the filter semantics) returns an envelope in which every entry of the
`instances` list has its `State` field equal to `"running"`. -/
theorem claim8_running_filter (pool : List Ec2Instance) (v : Value)
    (hmem : v ∈ envInstances (list_ec2_instances
        (fun fs => Except.ok (describeInstancesModel pool fs))
        (some [("instance-state-name", ["running"])]))) :
    entryState v = some (Value.str "running") := by
  have hmem2 : ∃ i, (i ∈ pool ∧ matchesFilter i "instance-state-name" ["running"] = true)
      ∧ instanceEntry i = v := by
    simpa [list_ec2_instances, envInstances, describeInstancesModel, alookup]
      using hmem
  obtain ⟨i, ⟨-, hrun⟩, rfl⟩ := hmem2
  have hstate : i.stateName = "running" := by
    simpa [matchesFilter] using hrun
  simp [entryState, instanceEntry, alookup, hstate]

/-- C8 witness: a pool with one running instance; its envelope entry has
state `"running"`. -/
theorem claim8_witness :
    entryState (instanceEntry
      ⟨"i-1", "t3.micro", "running", "2024-01-01T00:00:00", none, none, []⟩) =
      some (Value.str "running") :=
  claim8_running_filter
    [⟨"i-1", "t3.micro", "running", "2024-01-01T00:00:00", none, none, []⟩]
    (instanceEntry ⟨"i-1", "t3.micro", "running", "2024-01-01T00:00:00", none, none, []⟩)
    (by simp [envInstances, list_ec2_instances, describeInstancesModel,
      matchesFilter, alookup])

/-- C9, counterexample: the claim says the exit code is 1 on any failure,
including an error envelope; but `list <resource>` prints whatever
envelope the tool returned and exits 0 even when that envelope is an
error envelope. -/
theorem claim9_counterexample :
    cli_run (.listResources (some "ec2")
      (Except.ok [("error", Value.bool true),
                  ("error_message", Value.str "AccessDenied")])) = 0
  ∧ getTruthy [("error", Value.bool true),
               ("error_message", Value.str "AccessDenied")] "error" = true :=
  ⟨rfl, rfl⟩

/-- C9 (amended): `test-connection`, `health-check` and
`create <resource>` exit 0 exactly when the invoked operation succeeded
(and 1 on a raised exception or an error envelope); `list <resource>`
exits 1 when the tool raises or the resource is missing or unknown, but
exits 0 whenever the tool returns an envelope — even an error envelope;
with no subcommand the CLI exits 1. -/
theorem claim9_cli_exit_codes (result : Envelope) (e : AwsError)
    (checks : List (Except AwsError Envelope)) (res resource : String)
    (hres : res ∈ listResourceNames) (hcre : resource ∈ ["vpc", "ec2", "s3"]) :
    cli_run (.testConnection (Except.ok result)) =
      (if getTruthy result "success" then 0 else 1)
  ∧ cli_run (.testConnection (Except.error e)) = 1
  ∧ cli_run (.healthCheck checks) = (if checks.all checkSuccess then 0 else 1)
  ∧ cli_run (.listResources (some res) (Except.ok result)) = 0
  ∧ cli_run (.listResources (some res) (Except.error e)) = 1
  ∧ cli_run (.listResources none (Except.ok result)) = 1
  ∧ cli_run (.createResources (some resource) (Except.ok result)) =
      (if getTruthy result "success" then 0 else 1)
  ∧ cli_run (.createResources (some resource) (Except.error e)) = 1
  ∧ cli_run .noCommand = 1 := by
  simp only [listResourceNames, List.mem_cons, List.not_mem_nil, or_false] at hres
  simp only [List.mem_cons, List.not_mem_nil, or_false] at hcre
  refine ⟨rfl, rfl, ?_, ?_, ?_, rfl, ?_, ?_, rfl⟩
  · show cli_health_check checks = _
    by_cases hlen : (checks.filter checkSuccess).length = checks.length
    · have heq : checks.filter checkSuccess = checks :=
        (List.filter_sublist checks).eq_of_length hlen
      have hall : checks.all checkSuccess = true :=
        List.all_eq_true.mpr fun a ha => (List.mem_filter.mp (heq ▸ ha)).2
      simp [cli_health_check, hlen, hall]
    · have hall : ¬ checks.all checkSuccess = true := by
        intro h
        exact hlen (by
          rw [List.filter_eq_self.mpr (by simpa [List.all_eq_true] using h)])
      simp [cli_health_check, hlen, hall]
  · show cli_list_resources (some res) (Except.ok result) = 0
    rcases hres with rfl | rfl | rfl | rfl | rfl | rfl | rfl | rfl <;> rfl
  · show cli_list_resources (some res) (Except.error e) = 1
    rcases hres with rfl | rfl | rfl | rfl | rfl | rfl | rfl | rfl <;> rfl
  · show cli_create_resources (some resource) (Except.ok result) = _
    rcases hcre with rfl | rfl | rfl <;> rfl
  · show cli_create_resources (some resource) (Except.error e) = 1
    rcases hcre with rfl | rfl | rfl <;> rfl

/-- C9 witness: the amended exit-code behavior at concrete inputs
(`list ec2`, `create vpc`, a success envelope, a raised exception, no
checks). -/
theorem claim9_witness :
    cli_run (.testConnection (Except.ok [("success", Value.bool true)])) =
      (if getTruthy [("success", Value.bool true)] "success" then 0 else 1)
  ∧ cli_run (.testConnection (Except.error (.otherError "boom"))) = 1
  ∧ cli_run (.healthCheck []) = (if List.all [] checkSuccess then 0 else 1)
  ∧ cli_run (.listResources (some "ec2")
      (Except.ok [("success", Value.bool true)])) = 0
  ∧ cli_run (.listResources (some "ec2") (Except.error (.otherError "boom"))) = 1
  ∧ cli_run (.listResources none (Except.ok [("success", Value.bool true)])) = 1
  ∧ cli_run (.createResources (some "vpc")
      (Except.ok [("success", Value.bool true)])) =
      (if getTruthy [("success", Value.bool true)] "success" then 0 else 1)
  ∧ cli_run (.createResources (some "vpc") (Except.error (.otherError "boom"))) = 1
  ∧ cli_run .noCommand = 1 :=
  claim9_cli_exit_codes [("success", Value.bool true)] (.otherError "boom") []
    "ec2" "vpc" (by simp [listResourceNames]) (by simp)

end AwsInfra
